import Mathlib

/-!
Shallow embedding of the GestureHud gesture-recognition core
(`filter.py` and `tracker.py`) and verification of its specification.

Modelling conventions:
* Python floats are modelled as exact rationals (`ℚ`); decimal literals of
  the source become the corresponding rational literals.
* `math.pi` is itself a rational number (the IEEE-754 binary64 value closest
  to π); it is embedded exactly as `mathPi`.
* `math.sqrt`-based geometry (`math.hypot`, `HandTracker._dist3d`) is
  modelled over `ℝ` with `Real.sqrt`.  The per-frame pipeline
  (`HandTracker.process`) takes the handful of geometric distance values it
  consumes as a pre-evaluated per-frame measurement record (`Meas`), exactly
  as the source computes them once at the top of `_process`.
* Mutable per-hand state of `HandTracker.__init__` becomes the explicit
  state record `HandPersist`/`Persist` threaded through the step functions.
-/

namespace GestureHud

/-- Exact value of Python's `math.pi`: the IEEE-754 binary64 number closest
to π, namely 884279719003555 / 2^48. -/
def mathPi : ℚ := 884279719003555 / 281474976710656

/-! ## filter.py — `OneEuroFilter` -/

/-- State of `OneEuroFilter` (filter.py lines 21-27): the constructor
parameters together with the mutable fields `_x_prev`, `_dx_prev`,
`_t_prev`.  `_x_prev` and `_t_prev` start as Python `None`, hence `Option`. -/
structure OneEuroFilter where
  min_cutoff : ℚ
  beta : ℚ
  d_cutoff : ℚ
  x_prev : Option ℚ
  dx_prev : ℚ
  t_prev : Option ℚ
  deriving Repr, DecidableEq

/-- `OneEuroFilter.__init__` (filter.py lines 21-27) with the source's
default `d_cutoff=1.0` made explicit. -/
def OneEuroFilter.init (min_cutoff beta d_cutoff : ℚ) : OneEuroFilter :=
  { min_cutoff := min_cutoff, beta := beta, d_cutoff := d_cutoff,
    x_prev := none, dx_prev := 0, t_prev := none }

/-- `OneEuroFilter._alpha` (filter.py lines 55-58). -/
def OneEuroFilter.alpha (cutoff dt : ℚ) : ℚ :=
  let tau := 1 / (2 * mathPi * cutoff)
  1 / (1 + tau / dt)

/-- `OneEuroFilter.__call__` (filter.py lines 29-53), with the timestamp `t`
always passed explicitly (the tracker always passes one).  Returns the
output value together with the updated filter state.  In the `dt ≤ 0` guard
the source returns `self._x_prev`; that field is `None` only when `_t_prev`
is also `None`, which this branch excludes, so `Option.getD 0` never
actually supplies the default. -/
def OneEuroFilter.call (f : OneEuroFilter) (x t : ℚ) : ℚ × OneEuroFilter :=
  match f.t_prev with
  | none => (x, { f with x_prev := some x, t_prev := some t })
  | some tp =>
    let dt := t - tp
    if dt ≤ 0 then
      (f.x_prev.getD 0, f)
    else
      let xp := f.x_prev.getD 0
      let dx := (x - xp) / dt
      let a_d := OneEuroFilter.alpha f.d_cutoff dt
      let dx_hat := a_d * dx + (1 - a_d) * f.dx_prev
      let cutoff := f.min_cutoff + f.beta * |dx_hat|
      let a := OneEuroFilter.alpha cutoff dt
      let x_hat := a * x + (1 - a) * xp
      (x_hat, { f with x_prev := some x_hat, dx_prev := dx_hat, t_prev := some t })

/-- `OneEuroFilter.reset` (filter.py lines 60-63). -/
def OneEuroFilter.reset (f : OneEuroFilter) : OneEuroFilter :=
  { f with x_prev := none, dx_prev := 0, t_prev := none }

/-! ## tracker.py — constants and pinch state machine -/

namespace HandTracker

/-- `HandTracker.PINCH_ENTER` (tracker.py line 54). -/
def PINCH_ENTER : ℚ := 28 / 100

/-- `HandTracker.PINCH_EXIT` (tracker.py line 55). -/
def PINCH_EXIT : ℚ := 50 / 100

/-- `HandTracker.DEBOUNCE` (tracker.py line 56). -/
def DEBOUNCE : ℕ := 4

/-- `HandTracker.COOLDOWN` (tracker.py line 57). -/
def COOLDOWN : ℚ := 45 / 100

/-- `HandTracker.Z_WEIGHT` (tracker.py line 58). -/
def Z_WEIGHT : ℚ := 1 / 2

/-- The two values of the per-pair pinch state strings `"open"` /
`"pinched"` of tracker.py lines 86-87. -/
inductive PinchPhase where
  | opened
  | pinched
  deriving Repr, DecidableEq

/-- The mutable state one `(hand, finger-pair)` slice of the arrays
`_idx_state`/`_idx_count`/`_idx_exit`/`_last_lclick` (resp. the `_mid_`
arrays, tracker.py lines 86-93) holds between frames.  The counters are
Python ints that are only ever zeroed or incremented, hence `ℕ`. -/
structure PinchSM where
  phase : PinchPhase
  count : ℕ
  exitCount : ℕ
  lastClick : ℚ
  deriving Repr, DecidableEq

/-- `HandTracker._pinch` (tracker.py lines 233-277) restricted to the one
`(i, which)` state slice it reads and writes: hysteresis state machine for
pinch detection.  Returns the edge-triggered click flag together with the
updated slice. -/
def pinch (sm : PinchSM) (dist : ℚ) (qualified : Bool) (now : ℚ) : Bool × PinchSM :=
  match sm.phase with
  | .opened =>
    let count1 :=
      if dist < PINCH_ENTER ∧ qualified = true ∧ now - sm.lastClick > COOLDOWN then
        sm.count + 1
      else
        0
    if count1 ≥ DEBOUNCE then
      (true, { sm with phase := .pinched, count := 0, lastClick := now })
    else
      (false, { sm with count := count1 })
  | .pinched =>
    let exit1 := if dist > PINCH_EXIT then sm.exitCount + 1 else 0
    if exit1 ≥ 3 then
      (false, { sm with phase := .opened, exitCount := 0 })
    else
      (false, { sm with exitCount := exit1 })

/-- The fist-counter update of tracker.py line 228:
`min(cnt + 1, 20) if all_curled else 0`. -/
def fistStep (cnt : ℕ) (allCurled : Bool) : ℕ :=
  if allCurled then min (cnt + 1) 20 else 0

/-- `k` successive all-curled frames of fist-counter updates starting from
counter value `c`. -/
def fistRun (k : ℕ) (c : ℕ) : ℕ :=
  match k with
  | 0 => c
  | k + 1 => fistRun k (fistStep c true)

end HandTracker

/-! ## tracker.py — data model -/

/-- `math.hypot` on two arguments. -/
noncomputable def hypot (a b : ℝ) : ℝ := Real.sqrt (a ^ 2 + b ^ 2)

/-- One detector landmark: a 3D point in normalized coordinates.  The
detector hands the tracker concrete floating-point coordinates, modelled as
rationals. -/
structure Landmark where
  x : ℚ
  y : ℚ
  z : ℚ
  deriving Repr, DecidableEq

/-- `HandTracker._dist3d` (tracker.py lines 170-175): weighted 3D euclidean
distance between two landmarks, the depth axis scaled by `Z_WEIGHT`. -/
noncomputable def dist3d (a b : Landmark) : ℝ :=
  let dx : ℝ := ((a.x - b.x : ℚ) : ℝ)
  let dy : ℝ := ((a.y - b.y : ℚ) : ℝ)
  let dz : ℝ := ((a.z - b.z : ℚ) : ℝ) * ((HandTracker.Z_WEIGHT : ℚ) : ℝ)
  Real.sqrt (dx * dx + dy * dy + dz * dz)

/-- The dataclass `HandState` (tracker.py lines 20-31).  `velocity` is the
one field whose value involves `math.hypot`, hence `ℝ`. -/
structure HandState where
  x : ℚ
  y : ℚ
  click_left : Bool
  click_right : Bool
  is_fist : Bool
  is_peace : Bool
  is_open_palm : Bool
  velocity : ℝ
  detected : Bool
  landmarks : List (ℚ × ℚ)

/-- The dataclass defaults of `HandState()` (tracker.py lines 20-31). -/
def HandState.deflt : HandState :=
  { x := 0, y := 0, click_left := false, click_right := false,
    is_fist := false, is_peace := false, is_open_palm := false,
    velocity := 0, detected := false, landmarks := [] }

/-- The dataclass `TrackerState` (tracker.py lines 34-39). -/
structure TrackerState where
  primary : HandState
  secondary : HandState
  num_hands : ℕ
  fps : ℚ

/-- The dataclass defaults of `TrackerState()` (tracker.py lines 34-39). -/
def TrackerState.deflt : TrackerState :=
  { primary := HandState.deflt, secondary := HandState.deflt,
    num_hands := 0, fps := 0 }

/-- The per-frame, per-hand measurement record: the values `_process`
derives directly from the raw landmarks (tracker.py lines 181, 184-185,
195, 201-202, 205-213) before any state is consulted.  The three distance
fields are the `_dist3d` evaluations (square roots of concrete numbers, so
pre-evaluated here); the four extension flags are the outcomes of the
`tip_d > pip_d * 1.05` planar comparisons of lines 205-213. -/
structure Meas where
  x8 : ℚ
  y8 : ℚ
  handSizeRaw : ℚ
  thumbIdxRaw : ℚ
  thumbMidRaw : ℚ
  idx_ext : Bool
  mid_ext : Bool
  ring_ext : Bool
  pinky_ext : Bool
  landmarksXY : List (ℚ × ℚ)
  deriving Repr, DecidableEq

/-- `all_curled = not any(ext)` (tracker.py line 227). -/
def Meas.allCurled (m : Meas) : Bool :=
  !(m.idx_ext || m.mid_ext || m.ring_ext || m.pinky_ext)

/-- The hand-scale clamp of tracker.py lines 195-197: the computed
wrist-to-index-MCP distance is replaced by `0.1` when it is below `0.01`,
otherwise used as is. -/
def handScale (handSizeRaw : ℚ) : ℚ :=
  if handSizeRaw < 1 / 100 then 1 / 10 else handSizeRaw

/-- The mutable per-hand-slot state of `HandTracker.__init__`
(tracker.py lines 72-96): one slot `i` of each of the arrays
`_filt_x`, `_filt_y`, `_filt_d_idx`, `_filt_d_mid`, `_prev_x`, `_prev_y`,
`_prev_t`, the index and middle pinch state slices, and `_fist_cnt`. -/
structure HandPersist where
  filt_x : OneEuroFilter
  filt_y : OneEuroFilter
  filt_d_idx : OneEuroFilter
  filt_d_mid : OneEuroFilter
  prev_x : ℚ
  prev_y : ℚ
  prev_t : ℚ
  idx_sm : HandTracker.PinchSM
  mid_sm : HandTracker.PinchSM
  fist_cnt : ℕ
  deriving Repr, DecidableEq

/-- One hand slot's share of `HandTracker.__init__` (tracker.py lines
72-96): fresh filters with the source's constructor arguments, previous
position `(0.5, 0.5)`, previous time the construction time `t0`
(`time.perf_counter()` at line 83), both pinch slices open with zero
counters and last-click time `0.0`, fist counter `0`. -/
def HandPersist.init (t0 : ℚ) : HandPersist :=
  { filt_x := OneEuroFilter.init (3 / 2) (1 / 100) 1,
    filt_y := OneEuroFilter.init (3 / 2) (1 / 100) 1,
    filt_d_idx := OneEuroFilter.init (1 / 2) (3 / 1000) 1,
    filt_d_mid := OneEuroFilter.init (1 / 2) (3 / 1000) 1,
    prev_x := 1 / 2, prev_y := 1 / 2, prev_t := t0,
    idx_sm := { phase := .opened, count := 0, exitCount := 0, lastClick := 0 },
    mid_sm := { phase := .opened, count := 0, exitCount := 0, lastClick := 0 },
    fist_cnt := 0 }

/-- The whole mutable gesture state of the tracker: both hand slots. -/
structure Persist where
  hand0 : HandPersist
  hand1 : HandPersist
  deriving Repr, DecidableEq

/-- `HandTracker.__init__`'s gesture state (tracker.py lines 72-96). -/
def Persist.init (t0 : ℚ) : Persist :=
  { hand0 := HandPersist.init t0, hand1 := HandPersist.init t0 }

/-- `HandTracker._process` (tracker.py lines 177-231) for one hand slot,
with the slot's mutable state passed and returned explicitly and the
landmark-derived measurements supplied as `m` (see `Meas`).  Mirrors the
source line by line: filtered clamped cursor, velocity from the previous
(filtered) position, hand-scale clamp, filtered normalized pinch distances,
pinch eligibility `ring_ext or pinky_ext`, the two pinch machines, the
sustained-pose flags, and the fist counter. -/
noncomputable def process (hp : HandPersist) (m : Meas) (now : ℚ) :
    HandState × HandPersist :=
  let fx := hp.filt_x.call m.x8 now
  let hx := max 0 (min 1 fx.1)
  let fy := hp.filt_y.call m.y8 now
  let hy := max 0 (min 1 fy.1)
  let dt := now - hp.prev_t
  let vel : ℝ :=
    if dt > 0 then hypot ((hx : ℝ) - (hp.prev_x : ℝ)) ((hy : ℝ) - (hp.prev_y : ℝ)) / ((dt : ℚ) : ℝ)
    else 0
  let hand_size := handScale m.handSizeRaw
  let fdi := hp.filt_d_idx.call (m.thumbIdxRaw / hand_size) now
  let fdm := hp.filt_d_mid.call (m.thumbMidRaw / hand_size) now
  let can_pinch := m.ring_ext || m.pinky_ext
  let pl := HandTracker.pinch hp.idx_sm fdi.1 can_pinch now
  let pr := HandTracker.pinch hp.mid_sm fdm.1 can_pinch now
  let fist1 := HandTracker.fistStep hp.fist_cnt m.allCurled
  ({ x := hx, y := hy,
     click_left := pl.1, click_right := pr.1,
     is_fist := decide (fist1 ≥ 8),
     is_peace := m.idx_ext && m.mid_ext && !m.ring_ext && !m.pinky_ext,
     is_open_palm := m.idx_ext && m.mid_ext && m.ring_ext && m.pinky_ext,
     velocity := vel, detected := true, landmarks := m.landmarksXY },
   { hp with
     filt_x := fx.2, filt_y := fy.2, filt_d_idx := fdi.2, filt_d_mid := fdm.2,
     prev_x := hx, prev_y := hy, prev_t := now,
     idx_sm := pl.2, mid_sm := pr.2, fist_cnt := fist1 })

/-- One iteration of `HandTracker._loop` (tracker.py lines 149-168) after
frame acquisition: from the detector's per-hand measurements (at most the
first two are used, matching the `i >= 2` break) build the fresh
`TrackerState` and the updated gesture state, then publish.  The `fps`
field is the wall-clock moving average of line 165, not modelled from the
gesture state; it is passed through as a parameter. -/
noncomputable def loopStep (p : Persist) (hands : List Meas) (now fps : ℚ) :
    Persist × TrackerState :=
  match hands with
  | [] => (p, { TrackerState.deflt with fps := fps })
  | [m0] =>
    let r0 := process p.hand0 m0 now
    ({ p with hand0 := r0.2 },
     { primary := r0.1, secondary := HandState.deflt, num_hands := 1, fps := fps })
  | m0 :: m1 :: _ =>
    let r0 := process p.hand0 m0 now
    let r1 := process p.hand1 m1 now
    ({ p with hand0 := r0.2, hand1 := r1.2 },
     { primary := r0.1, secondary := r1.1, num_hands := 2, fps := fps })

/-- Iterated loop frames: run `loopStep` over a list of `(hands, time)`
frames, collecting the published snapshots in order. -/
noncomputable def runFrames (p : Persist) : List (List Meas × ℚ) → List TrackerState
  | [] => []
  | (hs, t) :: rest =>
    let r := loopStep p hs t 0
    r.2 :: runFrames r.1 rest

/-! ## The spec's two-hand pinch scenario

Hand 0's normalized thumb-index distance runs through
`[0.5, 0.4, 0.2, 0.15, 0.1]` over 5 frames at 30 fps, ring/pinky extended
throughout, cooldown satisfied (construction at time 0, frames from time 1,
last-click time 0).  Hand 1 is present with constant neutral measurements.
`handSizeRaw = 1` makes the normalized distance equal to `thumbIdxRaw`. -/

/-- Scenario measurement for one hand with thumb-index distance `d`:
ring and pinky extended, hand scale 1 (so the normalized distance is `d`
itself), everything else neutral. -/
def scenMeas (d : ℚ) : Meas :=
  { x8 := 1 / 2, y8 := 1 / 2, handSizeRaw := 1,
    thumbIdxRaw := d, thumbMidRaw := 1,
    idx_ext := false, mid_ext := false, ring_ext := true, pinky_ext := true,
    landmarksXY := [] }

/-- The five scenario frames: two hands per frame, 30 fps from time 1. -/
def scenFrames : List (List Meas × ℚ) :=
  [([scenMeas (1 / 2), scenMeas 1], 1),
   ([scenMeas (2 / 5), scenMeas 1], 1 + 1 / 30),
   ([scenMeas (1 / 5), scenMeas 1], 1 + 2 / 30),
   ([scenMeas (3 / 20), scenMeas 1], 1 + 3 / 30),
   ([scenMeas (1 / 10), scenMeas 1], 1 + 4 / 30)]

/-- The published `click_left` of the primary hand on each scenario frame. -/
noncomputable def scenClicks : List Bool :=
  (runFrames (Persist.init 0) scenFrames).map (fun s => s.primary.click_left)

/-! ## Helper lemmas: the filter -/

lemma mathPi_pos : 0 < mathPi := by norm_num [mathPi]

/-- First call on a fresh filter returns the input and records it. -/
lemma OneEuroFilter.call_fresh (f : OneEuroFilter) (x t : ℚ) (h : f.t_prev = none) :
    f.call x t = (x, { f with x_prev := some x, t_prev := some t }) := by
  rcases f with ⟨mc, b, dc, xp, dxp, tp⟩
  cases tp with
  | none => simp [OneEuroFilter.call]
  | some tp0 => simp at h

/-- A non-positive time step returns the stored value and leaves the
state untouched. -/
lemma OneEuroFilter.call_stale (f : OneEuroFilter) (x t tp : ℚ)
    (h : f.t_prev = some tp) (hle : t ≤ tp) :
    f.call x t = (f.x_prev.getD 0, f) := by
  rcases f with ⟨mc, b, dc, xp, dxp, tp'⟩
  cases tp' with
  | none => simp at h
  | some tp0 =>
    simp only [Option.some.injEq] at h
    subst h
    simp only [OneEuroFilter.call]
    rw [if_pos (by linarith)]

/-- The smoothing coefficient `α = 1/(1 + τ/dt)` lies in `(0, 1]` for a
positive cutoff and a positive time step. -/
lemma OneEuroFilter.alpha_mem (cutoff dt : ℚ) (hc : 0 < cutoff) (hdt : 0 < dt) :
    0 < OneEuroFilter.alpha cutoff dt ∧ OneEuroFilter.alpha cutoff dt ≤ 1 := by
  unfold OneEuroFilter.alpha
  have htau : 0 < 1 / (2 * mathPi * cutoff) := by
    apply div_pos one_pos
    have := mathPi_pos
    nlinarith
  have hq : 0 < 1 / (2 * mathPi * cutoff) / dt := div_pos htau hdt
  constructor
  · apply div_pos one_pos
    linarith
  · rw [div_le_one (by linarith)]
    linarith

/-- A convex combination of two rationals is at least their minimum. -/
lemma convex_min_le (a x xp : ℚ) (h0 : 0 ≤ a) (h1 : a ≤ 1) :
    min x xp ≤ a * x + (1 - a) * xp := by
  have hx : min x xp ≤ x := min_le_left _ _
  have hxp : min x xp ≤ xp := min_le_right _ _
  nlinarith [mul_nonneg h0 (sub_nonneg.2 hx), mul_nonneg (sub_nonneg.2 h1) (sub_nonneg.2 hxp)]

/-- On a strictly advancing timestamp, the filter output is a convex
combination of the new input and the stored value, hence at least their
minimum, provided the filter's cutoff configuration is positive. -/
lemma OneEuroFilter.min_le_call (f : OneEuroFilter) (x t tp : ℚ)
    (hmc : 0 < f.min_cutoff) (hb : 0 ≤ f.beta)
    (h : f.t_prev = some tp) (hlt : tp < t) :
    min x (f.x_prev.getD 0) ≤ (f.call x t).1 := by
  rcases f with ⟨mc, b, dc, xpo, dxp, tpo⟩
  simp only at hmc hb
  simp only at h
  subst h
  simp only [OneEuroFilter.call]
  rw [if_neg (not_le.mpr (by linarith : (0 : ℚ) < t - tp))]
  simp only
  apply convex_min_le
  · exact le_of_lt (OneEuroFilter.alpha_mem _ _
      (by nlinarith [abs_nonneg (OneEuroFilter.alpha dc (t - tp) * ((x - xpo.getD 0) / (t - tp)) +
        (1 - OneEuroFilter.alpha dc (t - tp)) * dxp), mul_nonneg hb (abs_nonneg (OneEuroFilter.alpha dc (t - tp) * ((x - xpo.getD 0) / (t - tp)) +
        (1 - OneEuroFilter.alpha dc (t - tp)) * dxp))])
      (by linarith)).1
  · exact (OneEuroFilter.alpha_mem _ _
      (by nlinarith [mul_nonneg hb (abs_nonneg (OneEuroFilter.alpha dc (t - tp) * ((x - xpo.getD 0) / (t - tp)) +
        (1 - OneEuroFilter.alpha dc (t - tp)) * dxp))])
      (by linarith)).2

/-! ## Helper lemmas: the pinch state machine -/

namespace HandTracker

/-- Open phase, qualifying condition false: the counter hard-resets and no
click fires. -/
lemma pinch_opened_notqual (sm : PinchSM) (dist now : ℚ) (q : Bool)
    (h : sm.phase = .opened)
    (hn : ¬(dist < PINCH_ENTER ∧ q = true ∧ now - sm.lastClick > COOLDOWN)) :
    pinch sm dist q now = (false, { sm with count := 0 }) := by
  rcases sm with ⟨p, c, e, l⟩
  cases p
  · simp only at hn
    have hn' : ¬(dist < PINCH_ENTER ∧ q = true ∧ now - l > COOLDOWN) := hn
    simp only [pinch]
    rw [if_neg hn']
    rw [if_neg (by simp [DEBOUNCE])]
  · simp at h

/-- Open phase, qualifying condition true, debounce not yet reached: the
counter increments and no click fires. -/
lemma pinch_opened_qual_low (sm : PinchSM) (dist now : ℚ) (q : Bool)
    (h : sm.phase = .opened)
    (hq : dist < PINCH_ENTER ∧ q = true ∧ now - sm.lastClick > COOLDOWN)
    (hc : sm.count + 1 < DEBOUNCE) :
    pinch sm dist q now = (false, { sm with count := sm.count + 1 }) := by
  rcases sm with ⟨p, c, e, l⟩
  cases p
  · simp only at hq hc
    have hq' : dist < PINCH_ENTER ∧ q = true ∧ now - l > COOLDOWN := hq
    simp only [pinch]
    rw [if_pos hq']
    rw [if_neg (by omega : ¬(c + 1 ≥ DEBOUNCE))]
  · simp at h

/-- Open phase, qualifying condition true, debounce reached: transition to
pinched, reset the counter, stamp the click time, fire the click. -/
lemma pinch_opened_qual_fire (sm : PinchSM) (dist now : ℚ) (q : Bool)
    (h : sm.phase = .opened)
    (hq : dist < PINCH_ENTER ∧ q = true ∧ now - sm.lastClick > COOLDOWN)
    (hc : DEBOUNCE ≤ sm.count + 1) :
    pinch sm dist q now =
      (true, { sm with phase := .pinched, count := 0, lastClick := now }) := by
  rcases sm with ⟨p, c, e, l⟩
  cases p
  · simp only at hq hc
    have hq' : dist < PINCH_ENTER ∧ q = true ∧ now - l > COOLDOWN := hq
    simp only [pinch]
    rw [if_pos hq']
    rw [if_pos (by omega : c + 1 ≥ DEBOUNCE)]
  · simp at h

/-- In the open phase a click can only fire together with a full debounce
count, and the counter never grows by more than one; when no click fires the
phase and the stored click time are unchanged. -/
lemma pinch_opened_low (sm : PinchSM) (dist now : ℚ) (q : Bool)
    (h : sm.phase = .opened) (hc : sm.count + 1 < DEBOUNCE) :
    (pinch sm dist q now).1 = false ∧
    (pinch sm dist q now).2.phase = .opened ∧
    (pinch sm dist q now).2.count ≤ sm.count + 1 ∧
    (pinch sm dist q now).2.lastClick = sm.lastClick := by
  by_cases hq : dist < PINCH_ENTER ∧ q = true ∧ now - sm.lastClick > COOLDOWN
  · rw [pinch_opened_qual_low sm dist now q h hq hc]
    simp [h]
  · rw [pinch_opened_notqual sm dist now q h hq]
    simp [h]

/-- From a freshly reset open machine, the first frame never clicks
(the debounce count of 4 cannot be reached in one frame). -/
lemma pinch_zero_one (d3 t3 : ℚ) (q3 : Bool) :
    (pinch ⟨.opened, 0, 0, 0⟩ d3 q3 t3).1 = false :=
  (pinch_opened_low ⟨.opened, 0, 0, 0⟩ d3 t3 q3 rfl (by norm_num [DEBOUNCE])).1

/-- From a freshly reset open machine, the second frame never clicks. -/
lemma pinch_zero_two (d3 d4 t3 t4 : ℚ) (q3 q4 : Bool) :
    (pinch (pinch ⟨.opened, 0, 0, 0⟩ d3 q3 t3).2 d4 q4 t4).1 = false := by
  obtain ⟨-, hp3, hn3, -⟩ :=
    pinch_opened_low ⟨.opened, 0, 0, 0⟩ d3 t3 q3 rfl (by norm_num [DEBOUNCE])
  exact (pinch_opened_low _ d4 t4 q4 hp3
    (by simp only [DEBOUNCE]; simp only at hn3; omega)).1

/-- From a freshly reset open machine, the third frame never clicks:
three frames cannot accumulate the debounce count of 4. -/
lemma pinch_zero_three (d3 d4 d5 t3 t4 t5 : ℚ) (q3 q4 q5 : Bool) :
    (pinch (pinch (pinch ⟨.opened, 0, 0, 0⟩ d3 q3 t3).2 d4 q4 t4).2 d5 q5 t5).1 = false := by
  obtain ⟨-, hp3, hn3, -⟩ :=
    pinch_opened_low ⟨.opened, 0, 0, 0⟩ d3 t3 q3 rfl (by norm_num [DEBOUNCE])
  simp only at hn3
  obtain ⟨-, hp4, hn4, -⟩ :=
    pinch_opened_low _ d4 t4 q4 hp3 (by simp only [DEBOUNCE]; omega)
  exact (pinch_opened_low _ d5 t5 q5 hp4 (by simp only [DEBOUNCE]; omega)).1

/-- In the pinched phase no click ever fires. -/
lemma pinch_pinched_noclick (sm : PinchSM) (dist now : ℚ) (q : Bool)
    (h : sm.phase = .pinched) :
    (pinch sm dist q now).1 = false := by
  rcases sm with ⟨p, c, e, l⟩
  cases p
  · simp at h
  · simp only [pinch]
    split <;> split <;> simp

end HandTracker

/-! ## Projection lemmas: the per-frame dataflow of `process` and `loopStep` -/

lemma process_click_left (hp : HandPersist) (m : Meas) (now : ℚ) :
    (process hp m now).1.click_left =
      (HandTracker.pinch hp.idx_sm
        ((hp.filt_d_idx.call (m.thumbIdxRaw / handScale m.handSizeRaw) now).1)
        (m.ring_ext || m.pinky_ext) now).1 := rfl

lemma process_idx_sm (hp : HandPersist) (m : Meas) (now : ℚ) :
    (process hp m now).2.idx_sm =
      (HandTracker.pinch hp.idx_sm
        ((hp.filt_d_idx.call (m.thumbIdxRaw / handScale m.handSizeRaw) now).1)
        (m.ring_ext || m.pinky_ext) now).2 := rfl

lemma process_filt_d_idx (hp : HandPersist) (m : Meas) (now : ℚ) :
    (process hp m now).2.filt_d_idx =
      (hp.filt_d_idx.call (m.thumbIdxRaw / handScale m.handSizeRaw) now).2 := rfl

lemma process_is_fist (hp : HandPersist) (m : Meas) (now : ℚ) :
    (process hp m now).1.is_fist =
      decide (HandTracker.fistStep hp.fist_cnt m.allCurled ≥ 8) := rfl

lemma process_fist_cnt (hp : HandPersist) (m : Meas) (now : ℚ) :
    (process hp m now).2.fist_cnt = HandTracker.fistStep hp.fist_cnt m.allCurled := rfl

lemma process_is_peace (hp : HandPersist) (m : Meas) (now : ℚ) :
    (process hp m now).1.is_peace =
      (m.idx_ext && m.mid_ext && !m.ring_ext && !m.pinky_ext) := rfl

lemma process_is_open_palm (hp : HandPersist) (m : Meas) (now : ℚ) :
    (process hp m now).1.is_open_palm =
      (m.idx_ext && m.mid_ext && m.ring_ext && m.pinky_ext) := rfl

lemma process_x (hp : HandPersist) (m : Meas) (now : ℚ) :
    (process hp m now).1.x = max 0 (min 1 (hp.filt_x.call m.x8 now).1) := rfl

lemma process_y (hp : HandPersist) (m : Meas) (now : ℚ) :
    (process hp m now).1.y = max 0 (min 1 (hp.filt_y.call m.y8 now).1) := rfl

lemma process_velocity (hp : HandPersist) (m : Meas) (now : ℚ) :
    (process hp m now).1.velocity =
      if now - hp.prev_t > 0 then
        hypot (((max 0 (min 1 (hp.filt_x.call m.x8 now).1) : ℚ) : ℝ) - (hp.prev_x : ℝ))
              (((max 0 (min 1 (hp.filt_y.call m.y8 now).1) : ℚ) : ℝ) - (hp.prev_y : ℝ)) /
          ((now - hp.prev_t : ℚ) : ℝ)
      else 0 := rfl

lemma loopStep_nil (p : Persist) (now fps : ℚ) :
    loopStep p [] now fps = (p, { TrackerState.deflt with fps := fps }) := rfl

lemma loopStep_two_primary (p : Persist) (m0 m1 : Meas) (rest : List Meas) (now fps : ℚ) :
    (loopStep p (m0 :: m1 :: rest) now fps).2.primary = (process p.hand0 m0 now).1 := rfl

lemma loopStep_two_hand0 (p : Persist) (m0 m1 : Meas) (rest : List Meas) (now fps : ℚ) :
    (loopStep p (m0 :: m1 :: rest) now fps).1.hand0 = (process p.hand0 m0 now).2 := rfl

lemma runFrames_cons (p : Persist) (hs : List Meas) (t : ℚ) (rest : List (List Meas × ℚ)) :
    runFrames p ((hs, t) :: rest) =
      (loopStep p hs t 0).2 :: runFrames (loopStep p hs t 0).1 rest := rfl

/-! ## Helper lemmas: the fist counter -/

namespace HandTracker

/-- Running the fist counter over `k` consecutive all-curled frames from a
value `c ≤ 20` yields `min (c + k) 20`. -/
lemma fistRun_eq (k : ℕ) : ∀ c : ℕ, c ≤ 20 → fistRun k c = min (c + k) 20 := by
  induction k with
  | zero => intro c hc; simp [fistRun]; omega
  | succ k ih =>
    intro c hc
    show fistRun k (fistStep c true) = _
    rw [show fistStep c true = min (c + 1) 20 from by simp [fistStep]]
    rw [ih (min (c + 1) 20) (by omega)]
    omega

end HandTracker

/-- In the spec's scenario, no click fires on any of the five frames: the
raw distance is above the enter threshold on frames 1 and 2 (after
filtering, frame 2's distance is at least `min(0.4, 0.5) = 0.4`), so the
qualifying counter is still 0 entering frame 3, and three frames cannot
accumulate the debounce count of 4. -/
lemma scen_clicks_eq : scenClicks = [false, false, false, false, false] := by
  have hhs : handScale (1 : ℚ) = 1 := by norm_num [handScale]
  simp only [scenClicks, scenFrames, runFrames_cons, runFrames, List.map_cons, List.map_nil]
  simp only [loopStep_two_primary, loopStep_two_hand0, process_click_left, process_idx_sm,
    process_filt_d_idx]
  simp only [scenMeas, hhs, div_one, Bool.or_self]
  rw [show (Persist.init 0).hand0.idx_sm =
      (⟨.opened, 0, 0, 0⟩ : HandTracker.PinchSM) from rfl]
  rw [show (Persist.init 0).hand0.filt_d_idx = OneEuroFilter.init (1/2) (3/1000) 1 from rfl]
  rw [OneEuroFilter.call_fresh (OneEuroFilter.init (1/2) (3/1000) 1) (1/2) 1 rfl]
  dsimp only [OneEuroFilter.init]
  -- frame 1: raw distance 1/2 is not below the enter threshold
  have hp1 : HandTracker.pinch (⟨.opened, 0, 0, 0⟩ : HandTracker.PinchSM) (1/2) true 1 =
      (false, (⟨.opened, 0, 0, 0⟩ : HandTracker.PinchSM)) :=
    HandTracker.pinch_opened_notqual _ _ _ _ rfl
      (by intro hcon; have := hcon.1; norm_num [HandTracker.PINCH_ENTER] at this)
  rw [hp1]
  dsimp only
  -- frame 2: the filtered distance is at least min(2/5, 1/2) = 2/5, above the threshold
  have hb2 : (2/5 : ℚ) ≤
      ((⟨1/2, 3/1000, 1, some (1/2), 0, some 1⟩ : OneEuroFilter).call (2/5) (1 + 1/30)).1 := by
    have h := OneEuroFilter.min_le_call
      (⟨1/2, 3/1000, 1, some (1/2), 0, some 1⟩ : OneEuroFilter) (2/5) (1 + 1/30) 1
      (by norm_num) (by norm_num) rfl (by norm_num)
    rw [show (min (2/5 : ℚ) (((some (1/2) : Option ℚ)).getD 0)) = 2/5 from by
      simp [min_def]; norm_num] at h
    exact h
  have hp2 : HandTracker.pinch (⟨.opened, 0, 0, 0⟩ : HandTracker.PinchSM)
      (((⟨1/2, 3/1000, 1, some (1/2), 0, some 1⟩ : OneEuroFilter).call (2/5) (1 + 1/30)).1)
      true (1 + 1/30) =
      (false, (⟨.opened, 0, 0, 0⟩ : HandTracker.PinchSM)) :=
    HandTracker.pinch_opened_notqual _ _ _ _ rfl
      (by
        intro hcon
        have h1 := hcon.1
        rw [HandTracker.PINCH_ENTER] at h1
        norm_num at h1
        linarith)
  rw [hp2]
  dsimp only
  -- frames 3-5: three frames from a zeroed counter cannot reach the debounce count
  rw [HandTracker.pinch_zero_one, HandTracker.pinch_zero_two, HandTracker.pinch_zero_three]

/-! ## Claim theorems -/

/-- C4: in the pinched phase the exit counter increments exactly when the
distance exceeds the 0.50 exit threshold and resets to 0 otherwise (any dip
back to or below 0.50 resets it); the machine transitions back to open
exactly on reaching 3 consecutive frames past the exit threshold, stays
pinched before that, and never fires a click while pinched. -/
theorem pinch_pinched_frame_spec (sm : HandTracker.PinchSM) (dist now : ℚ) (q : Bool)
    (h : sm.phase = .pinched) :
    (HandTracker.pinch sm dist q now).1 = false ∧
    (dist > HandTracker.PINCH_EXIT →
      (sm.exitCount + 1 < 3 →
        HandTracker.pinch sm dist q now =
          (false, { sm with exitCount := sm.exitCount + 1 })) ∧
      (3 ≤ sm.exitCount + 1 →
        HandTracker.pinch sm dist q now =
          (false, { sm with phase := .opened, exitCount := 0 }))) ∧
    (¬dist > HandTracker.PINCH_EXIT →
      HandTracker.pinch sm dist q now = (false, { sm with exitCount := 0 })) := by
  rcases sm with ⟨p, c, e, l⟩
  cases p
  · simp at h
  · refine ⟨HandTracker.pinch_pinched_noclick _ dist now q rfl,
      fun hd => ⟨fun hc => ?_, fun hc => ?_⟩, fun hd => ?_⟩
    · simp only at hc
      simp only [HandTracker.pinch]
      rw [if_pos hd, if_neg (by omega : ¬e + 1 ≥ 3)]
    · simp only at hc
      simp only [HandTracker.pinch]
      rw [if_pos hd, if_pos (by omega : e + 1 ≥ 3)]
    · simp only [HandTracker.pinch]
      rw [if_neg hd, if_neg (by omega : ¬(0 : ℕ) ≥ 3)]

/-- Witness for C4: a pinched machine with exit counter 2 sees a frame with
distance 0.6 above the exit threshold and transitions back to open. -/
theorem pinch_pinched_frame_spec_witness :
    HandTracker.pinch ⟨.pinched, 0, 2, 0⟩ (3/5) true 1 =
      (false, (⟨.opened, 0, 0, 0⟩ : HandTracker.PinchSM)) :=
  (pinch_pinched_frame_spec ⟨.pinched, 0, 2, 0⟩ (3/5) 1 true rfl).2.1
    (by norm_num [HandTracker.PINCH_EXIT]) |>.2 (by norm_num)

/-- C5: the fist counter resets to 0 on any disqualifying frame; over `k`
consecutive all-curled frames from a reset it equals `min k 20` (capped at
20); the sustained flag (counter at least 8) holds exactly when at least 8
consecutive all-curled frames have accumulated — in particular not after 7
frames and after 8; and each processed frame reports `is_fist` exactly when
the updated counter is at least 8. -/
theorem fist_sustain_spec :
    (∀ c : ℕ, HandTracker.fistStep c false = 0) ∧
    (∀ k : ℕ, HandTracker.fistRun k 0 = min k 20) ∧
    (∀ k : ℕ, (8 ≤ HandTracker.fistRun k 0 ↔ 8 ≤ k)) ∧
    HandTracker.fistRun 7 0 < 8 ∧ 8 ≤ HandTracker.fistRun 8 0 ∧
    (∀ (hp : HandPersist) (m : Meas) (now : ℚ),
      ((process hp m now).1.is_fist = true ↔
        8 ≤ HandTracker.fistStep hp.fist_cnt m.allCurled) ∧
      (process hp m now).2.fist_cnt = HandTracker.fistStep hp.fist_cnt m.allCurled) := by
  have hrun : ∀ k : ℕ, HandTracker.fistRun k 0 = min k 20 := by
    intro k
    have := HandTracker.fistRun_eq k 0 (by norm_num)
    simpa using this
  refine ⟨fun c => by simp [HandTracker.fistStep], hrun, fun k => ?_, ?_, ?_, ?_⟩
  · rw [hrun k]
    omega
  · rw [hrun 7]
    norm_num
  · rw [hrun 8]
    norm_num
  · intro hp m now
    refine ⟨?_, process_fist_cnt hp m now⟩
    rw [process_is_fist]
    simp [ge_iff_le]

/-- C6: once the filter holds a sample, a call with an equal-or-earlier
timestamp returns the stored filtered value and leaves the whole filter
state unchanged. -/
theorem filter_time_guard_spec (f : OneEuroFilter) (x t xp tp : ℚ)
    (hx : f.x_prev = some xp) (ht : f.t_prev = some tp) (hle : t ≤ tp) :
    f.call x t = (xp, f) := by
  rw [OneEuroFilter.call_stale f x t tp ht hle, hx]
  rfl

/-- Witness for C6: a filter holding value 3/4 at time 1 is called again at
time 1 with input 2 and returns 3/4 with its state unchanged. -/
theorem filter_time_guard_spec_witness :
    (⟨3/2, 1/100, 1, some (3/4), 0, some 1⟩ : OneEuroFilter).call 2 1 =
      (3/4, ⟨3/2, 1/100, 1, some (3/4), 0, some 1⟩) :=
  filter_time_guard_spec _ 2 1 (3/4) 1 rfl rfl le_rfl

/-- C8: a frame with zero detected hands publishes a snapshot with
`num_hands = 0` and both hand results in the default not-detected state,
and returns the gesture state (all filters, pinch machines, click
timestamps and fist counters) exactly unchanged. -/
theorem loop_zero_hands_spec (p : Persist) (now fps : ℚ) :
    loopStep p [] now fps =
      (p, { primary := HandState.deflt, secondary := HandState.deflt,
            num_hands := 0, fps := fps }) ∧
    HandState.deflt.detected = false :=
  ⟨rfl, rfl⟩

/-- C1 (counterexample): an open machine with count 2 and last click at
time 0 sees a frame at time 0.45 with filtered distance 0.2 and eligibility
true.  Exactly 0.45 s have elapsed, so the claim's "at least 0.45 seconds"
condition holds, yet the counter resets to 0 instead of incrementing to 3:
the source requires strictly more than the cooldown (tracker.py line 256). -/
theorem pinch_cooldown_exact_boundary :
    ((1 : ℚ)/5 < HandTracker.PINCH_ENTER ∧
      (9 : ℚ)/20 - 0 ≥ HandTracker.COOLDOWN) ∧
    (HandTracker.pinch ⟨.opened, 2, 0, 0⟩ (1/5) true (9/20)).2.count = 0 ∧
    (HandTracker.pinch ⟨.opened, 2, 0, 0⟩ (1/5) true (9/20)).2.count ≠ 2 + 1 := by
  have hstep : HandTracker.pinch (⟨.opened, 2, 0, 0⟩ : HandTracker.PinchSM)
      (1/5) true (9/20) =
      (false, { (⟨.opened, 2, 0, 0⟩ : HandTracker.PinchSM) with count := 0 }) :=
    HandTracker.pinch_opened_notqual _ _ _ _ rfl
      (by norm_num [HandTracker.PINCH_ENTER, HandTracker.COOLDOWN])
  refine ⟨⟨by norm_num [HandTracker.PINCH_ENTER],
    by norm_num [HandTracker.COOLDOWN]⟩, ?_, ?_⟩
  · rw [hstep]
  · rw [hstep]
    simp

/-- C1 (amended claim): in the open phase, the qualifying counter
increments exactly when the filtered distance is below the 0.28 enter
threshold AND pinch is eligible AND strictly more than 0.45 s have elapsed
since the last click, and resets to 0 otherwise; on reaching 4 consecutive
qualifying frames the machine transitions to pinched, resets the counter,
stamps the click time, and fires the click on exactly that frame
(a click implies a full debounce count); while pinched no click ever
fires. -/
theorem pinch_open_frame_spec (sm : HandTracker.PinchSM) (dist now : ℚ) (q : Bool)
    (h : sm.phase = .opened) :
    ((dist < HandTracker.PINCH_ENTER ∧ q = true ∧
        now - sm.lastClick > HandTracker.COOLDOWN) →
      (sm.count + 1 < HandTracker.DEBOUNCE →
        HandTracker.pinch sm dist q now = (false, { sm with count := sm.count + 1 })) ∧
      (HandTracker.DEBOUNCE ≤ sm.count + 1 →
        HandTracker.pinch sm dist q now =
          (true, { sm with phase := .pinched, count := 0, lastClick := now }))) ∧
    (¬(dist < HandTracker.PINCH_ENTER ∧ q = true ∧
        now - sm.lastClick > HandTracker.COOLDOWN) →
      HandTracker.pinch sm dist q now = (false, { sm with count := 0 })) ∧
    ((HandTracker.pinch sm dist q now).1 = true →
      HandTracker.DEBOUNCE ≤ sm.count + 1 ∧
      (dist < HandTracker.PINCH_ENTER ∧ q = true ∧
        now - sm.lastClick > HandTracker.COOLDOWN)) ∧
    (∀ sm2 : HandTracker.PinchSM, sm2.phase = .pinched →
      (HandTracker.pinch sm2 dist q now).1 = false) := by
  refine ⟨fun hq =>
      ⟨fun hc => HandTracker.pinch_opened_qual_low sm dist now q h hq hc,
       fun hc => HandTracker.pinch_opened_qual_fire sm dist now q h hq hc⟩,
    fun hn => HandTracker.pinch_opened_notqual sm dist now q h hn, ?_,
    fun sm2 h2 => HandTracker.pinch_pinched_noclick sm2 dist now q h2⟩
  intro hclick
  by_cases hq : dist < HandTracker.PINCH_ENTER ∧ q = true ∧
      now - sm.lastClick > HandTracker.COOLDOWN
  · by_cases hc : HandTracker.DEBOUNCE ≤ sm.count + 1
    · exact ⟨hc, hq⟩
    · rw [HandTracker.pinch_opened_qual_low sm dist now q h hq (by omega)] at hclick
      simp at hclick
  · rw [HandTracker.pinch_opened_notqual sm dist now q h hq] at hclick
    simp at hclick

/-- Witness for C1's amended theorem: an open machine with count 3, last
click long elapsed, sees a qualifying frame (distance 0.25, eligible) at
time 1 and fires, transitioning to pinched with the click time stamped. -/
theorem pinch_open_frame_spec_witness :
    HandTracker.pinch ⟨.opened, 3, 0, 0⟩ (1/4) true 1 =
      (true, (⟨.pinched, 0, 0, 1⟩ : HandTracker.PinchSM)) :=
  ((pinch_open_frame_spec ⟨.opened, 3, 0, 0⟩ (1/4) 1 true rfl).1
    (by norm_num [HandTracker.PINCH_ENTER, HandTracker.COOLDOWN])).2
    (by norm_num [HandTracker.DEBOUNCE])

/-- C9: the three sustained-pose flags of one produced hand result are
pairwise exclusive: a true `is_fist` forces an all-curled current frame
(the counter resets on any other frame), which falsifies `is_peace` and
`is_open_palm`; `is_peace` (ring and pinky not extended) and `is_open_palm`
(all four extended) exclude each other. -/
theorem pose_flags_exclusive (hp : HandPersist) (m : Meas) (now : ℚ) :
    ((process hp m now).1.is_fist = true →
      (process hp m now).1.is_peace = false ∧
      (process hp m now).1.is_open_palm = false) ∧
    ((process hp m now).1.is_peace = true →
      (process hp m now).1.is_open_palm = false) := by
  rw [process_is_fist, process_is_peace, process_is_open_palm]
  cases hi : m.idx_ext <;> cases hm : m.mid_ext <;>
    cases hr : m.ring_ext <;> cases hpk : m.pinky_ext <;>
    simp [Meas.allCurled, HandTracker.fistStep, hi, hm, hr, hpk]

/-- Witness for C9: a hand showing index and middle extended only reports
`is_peace` and therefore not `is_open_palm`. -/
theorem pose_flags_exclusive_witness :
    (process (HandPersist.init 0)
      ⟨1/2, 1/2, 1, 1, 1, true, true, false, false, []⟩ 1).1.is_open_palm = false :=
  (pose_flags_exclusive (HandPersist.init 0)
    ⟨1/2, 1/2, 1, 1, 1, true, true, false, false, []⟩ 1).2 rfl

/-- C3 (counterexample): in the spec's scenario (normalized thumb-index
distances `[0.5, 0.4, 0.2, 0.15, 0.1]` at 30 fps, ring/pinky extended,
cooldown satisfied) the claim predicts `click_left = true` on frame 5, but
the code produces `false`: the sequence contains only three sub-threshold
values — 0.4 is not below the 0.28 enter threshold — against a debounce
count of 4, and filtering only raises the distances further. -/
theorem scen_frame5_no_click : scenClicks.getD 4 true = false := by
  rw [scen_clicks_eq]
  rfl

/-- C3 (amended claim): in the spec's scenario the produced hand result has
`click_left = false` on every one of the five frames: only frames 3-5 are
below the enter threshold even before filtering, which is fewer than the
debounce count of 4, so no click can fire. -/
theorem scen_no_click_any_frame : scenClicks = [false, false, false, false, false] :=
  scen_clicks_eq

/-- C2 (counterexample): a wrist-to-index-MCP distance of 0.05 — realized
e.g. by landmarks 0.05 apart along the x axis — is below 0.1 but at least
0.01, so the clamp of tracker.py lines 196-197 passes it through unchanged:
the divisor actually used is 0.05, not 0.1, refuting the claimed floor at
0.1. -/
theorem handScale_small_passthrough :
    ((1 : ℚ)/20 < 1/10) ∧ handScale (1/20) = 1/20 ∧ handScale (1/20) ≠ 1/10 ∧
    dist3d ⟨0, 0, 0⟩ ⟨1/20, 0, 0⟩ = ((1/20 : ℚ) : ℝ) := by
  refine ⟨by norm_num, by norm_num [handScale], by norm_num [handScale], ?_⟩
  simp only [dist3d]
  push_cast
  norm_num
  rw [show (400 : ℝ) = 20 ^ 2 by norm_num, Real.sqrt_sq (by norm_num)]
  norm_num

/-- C2 (amended claim): the divisor is the computed wrist-to-index-MCP
distance unless that distance is below 0.01, in which case 0.1 is
substituted; hence for a nonnegative computed distance the divisor is at
least 0.01 — a distance in [0.01, 0.1) is used as-is, so the effective
floor is 0.01, not 0.1. -/
theorem handScale_clamp_spec (d : ℚ) :
    (d < 1/100 → handScale d = 1/10) ∧
    (1/100 ≤ d → handScale d = d) ∧
    (0 ≤ d → 1/100 ≤ handScale d) := by
  refine ⟨fun h => ?_, fun h => ?_, fun h => ?_⟩
  · simp only [handScale]
    rw [if_pos h]
  · simp only [handScale]
    rw [if_neg (not_lt.mpr h)]
  · simp only [handScale]
    split
    · norm_num
    · rename_i hnl
      linarith [not_lt.mp hnl]

/-- Witness for C2's amended theorem: a distance of 0.005 is clamped to
0.1, and a distance of 0.05 yields a divisor of at least 0.01. -/
theorem handScale_clamp_spec_witness :
    handScale (1/200) = 1/10 ∧ (1/100 : ℚ) ≤ handScale (1/20) :=
  ⟨(handScale_clamp_spec (1/200)).1 (by norm_num),
   (handScale_clamp_spec (1/20)).2.2 (by norm_num)⟩

/-- C10: on the first frame a hand slot ever processes after construction
at time `t0`, the reported velocity is computed against the placeholder
previous position `(0.5, 0.5)` and the construction time — so a hand first
detected with its (clamped) cursor away from the screen-center x value 0.5
reports a strictly positive spurious velocity. -/
theorem first_frame_velocity_spec (t0 now : ℚ) (m : Meas)
    (h1 : t0 < now) (h2 : max 0 (min 1 m.x8) ≠ 1/2) :
    (process (HandPersist.init t0) m now).1.velocity =
      hypot (((max 0 (min 1 m.x8) : ℚ) : ℝ) - ((1/2 : ℚ) : ℝ))
            (((max 0 (min 1 m.y8) : ℚ) : ℝ) - ((1/2 : ℚ) : ℝ)) /
        ((now - t0 : ℚ) : ℝ) ∧
    0 < (process (HandPersist.init t0) m now).1.velocity := by
  have hvel : (process (HandPersist.init t0) m now).1.velocity =
      hypot (((max 0 (min 1 m.x8) : ℚ) : ℝ) - ((1/2 : ℚ) : ℝ))
            (((max 0 (min 1 m.y8) : ℚ) : ℝ) - ((1/2 : ℚ) : ℝ)) /
        ((now - t0 : ℚ) : ℝ) := by
    rw [process_velocity]
    rw [show (HandPersist.init t0).prev_t = t0 from rfl]
    rw [show (HandPersist.init t0).prev_x = 1/2 from rfl]
    rw [show (HandPersist.init t0).prev_y = 1/2 from rfl]
    rw [show (HandPersist.init t0).filt_x = OneEuroFilter.init (3/2) (1/100) 1 from rfl]
    rw [show (HandPersist.init t0).filt_y = OneEuroFilter.init (3/2) (1/100) 1 from rfl]
    rw [OneEuroFilter.call_fresh (OneEuroFilter.init (3/2) (1/100) 1) m.x8 now rfl]
    rw [OneEuroFilter.call_fresh (OneEuroFilter.init (3/2) (1/100) 1) m.y8 now rfl]
    rw [if_pos (by linarith : now - t0 > 0)]
  refine ⟨hvel, ?_⟩
  rw [hvel]
  apply div_pos
  · unfold hypot
    apply Real.sqrt_pos.mpr
    have ha : ((max 0 (min 1 m.x8) : ℚ) : ℝ) - ((1/2 : ℚ) : ℝ) ≠ 0 := by
      intro hh
      apply h2
      have : ((max 0 (min 1 m.x8) : ℚ) : ℝ) = ((1/2 : ℚ) : ℝ) := by linarith
      exact_mod_cast this
    have hb := sq_nonneg (((max 0 (min 1 m.y8) : ℚ) : ℝ) - ((1/2 : ℚ) : ℝ))
    have ha2 : 0 < (((max 0 (min 1 m.x8) : ℚ) : ℝ) - ((1/2 : ℚ) : ℝ)) ^ 2 := by
      positivity
    linarith
  · have : (0 : ℚ) < now - t0 := by linarith
    exact_mod_cast this

/-- Witness for C10: a hand first seen at x = 0.9 one thirtieth of a second
after construction reports a strictly positive velocity. -/
theorem first_frame_velocity_spec_witness :
    0 < (process (HandPersist.init 0)
      ⟨9/10, 1/2, 1, 1, 1, false, false, false, false, []⟩ (1/30)).1.velocity :=
  (first_frame_velocity_spec 0 (1/30) _ (by norm_num)
    (by norm_num [max_def, min_def])).2

end GestureHud
